import Mathlib

/-!
Shallow embedding of the BudgetBuddy API routing layer
(`app/api/[[...route]]/route.ts`): a Hono app with base path `/api`,
one registered route `GET /hello` whose chain is
`[clerkMiddleware(), handler]`, and the Vercel adapter exporting both
`GET = handle(app)` and `POST = handle(app)`.

The dispatcher is instrumented with a step-invocation counter: the
second component of a dispatch result is the number of chain steps
(middleware and terminal handler together) that actually ran.
-/

namespace BudgetBuddy

/-- HTTP methods relevant to the app (the adapter exposes GET and POST). -/
inductive Method where
  | GET
  | POST
  | PUT
  | DELETE
  | PATCH
deriving DecidableEq

/-- The credential carried by a request, as seen by the auth layer:
absent, present but invalid or expired, or valid for a given user id. -/
inductive Credential where
  | absent
  | invalid
  | valid (userId : String)
deriving DecidableEq

/-- The resolved authentication context (`getAuth(c)`): an optional
user id. `userId = none` is the anonymous context. -/
structure AuthContext where
  userId : Option String
deriving DecidableEq

/-- JSON values as produced by `c.json(...)`: strings, objects with
ordered fields, and arrays. -/
inductive Json where
  | str (s : String)
  | obj (fields : List (String × Json))
  | arr (items : List Json)

/-- Field lookup in a JSON object; `none` on non-objects. -/
def Json.lookupField : Json → String → Option Json
  | .obj fs, k => fs.lookup k
  | .str _, _ => none
  | .arr _, _ => none

mutual

/-- Serialization of a JSON value, as the response body bytes. -/
def Json.render : Json → String
  | .str s => "\"" ++ s ++ "\""
  | .obj fs => "\x7b" ++ Json.renderFields fs ++ "\x7d"
  | .arr xs => "[" ++ Json.renderItems xs ++ "]"

/-- Serialization of the field list of a JSON object. -/
def Json.renderFields : List (String × Json) → String
  | [] => ""
  | [(k, v)] => "\"" ++ k ++ "\":" ++ Json.render v
  | (k, v) :: rest => "\"" ++ k ++ "\":" ++ Json.render v ++ "," ++ Json.renderFields rest

/-- Serialization of the item list of a JSON array. -/
def Json.renderItems : List Json → String
  | [] => ""
  | [x] => Json.render x
  | x :: rest => Json.render x ++ "," ++ Json.renderItems rest

end

/-- An HTTP response: status code and JSON body. `c.json(body)` with no
second argument produces status 200. -/
structure Response where
  status : Nat
  body : Json

/-- An incoming request: method, path split into segments, credential,
and the inputs the hello handler never reads (query, headers, body). -/
structure Request where
  method : Method
  path : List String
  cred : Credential
  query : List (String × String)
  headers : List (String × String)
  rawBody : Option String

/-- The per-request context bag: path parameters bound by the route
match, the auth context stored by the Clerk middleware, and the value
stored by a param validator. -/
structure Ctx where
  params : List (String × String)
  auth : Option AuthContext
  validatedParam : Option (List (String × String))

/-- Outcome of one middleware step: pass control on with a possibly
enriched context, or terminate the chain with a response. -/
inductive StepOut where
  | next (c : Ctx)
  | halt (r : Response)

/-- A middleware step. -/
abbrev Step := Request → Ctx → StepOut

/-- A terminal handler: always produces a response. -/
abbrev Handler := Request → Ctx → Response

/-- A path pattern segment: a literal, or a named single-segment
parameter (`:name`). -/
inductive Seg where
  | lit (s : String)
  | pvar (name : String)

/-- A registered route: method, full path pattern (base path included),
middleware steps, and terminal handler. -/
structure Route where
  method : Method
  pattern : List Seg
  steps : List Step
  handler : Handler

/-- Match a pattern against concrete path segments, binding named
parameters; `none` when the shapes disagree. -/
def matchSegs : List Seg → List String → Option (List (String × String))
  | [], [] => some []
  | .lit s :: ps, x :: xs => if s = x then matchSegs ps xs else none
  | .pvar n :: ps, x :: xs => (matchSegs ps xs).map (fun m => (n, x) :: m)
  | [], _ :: _ => none
  | _ :: _, [] => none

/-- First-match-wins route lookup over the registration order. -/
def findRoute : List Route → Method → List String → Option (Route × List (String × String))
  | [], _, _ => none
  | r :: rs, m, p =>
    if r.method = m then
      match matchSegs r.pattern p with
      | some ps => some (r, ps)
      | none => findRoute rs m p
    else findRoute rs m p

/-- Run a chain left to right; the second component counts the steps
that were invoked (the terminal handler counts as one step). A halting
step ends the run: nothing after it is evaluated. -/
def runChainCount (steps : List Step) (h : Handler) (req : Request) (c : Ctx) :
    Response × Nat :=
  match steps with
  | [] => (h req c, 1)
  | s :: rest =>
    match s req c with
    | .halt r => (r, 1)
    | .next c' =>
      let p := runChainCount rest h req c'
      (p.1, p.2 + 1)

/-- Run only middleware steps, threading the context, stopping at the
first halting step. Used to speak about a chain position. -/
def runSteps (steps : List Step) (req : Request) (c : Ctx) : StepOut :=
  match steps with
  | [] => .next c
  | s :: rest =>
    match s req c with
    | .halt r => .halt r
    | .next c' => runSteps rest req c'

/-- The framework response when no route matches: 404 with a generic
not-found body, produced before any chain step runs. -/
def notFoundResponse : Response :=
  ⟨404, .str "404 Not Found"⟩

/-- Modelled from the spec: the Clerk identity resolution behind
`clerkMiddleware`/`getAuth`, which is library code not in this
repository. An absent credential yields the anonymous context, and an
invalid or expired credential also yields the anonymous context
(fail-open); a valid credential yields the authenticated user id. -/
def resolve : Credential → AuthContext
  | .absent => ⟨none⟩
  | .invalid => ⟨none⟩
  | .valid u => ⟨some u⟩

/-- The `clerkMiddleware()` step: resolve the credential through the
given resolver, store the auth context in the request context, and
always continue the chain (it is a soft gate). -/
def clerkStep (rv : Credential → AuthContext) : Step :=
  fun req c => .next { c with auth := some (rv req.cred) }

/-- The `GET /hello` terminal handler: reads `getAuth(c)`; with no user
id it returns `c.json({message:"Unauthorized"})` (no status argument,
hence status 200), otherwise `c.json({message,userId})`. -/
def helloHandler : Handler :=
  fun _ c =>
    match (c.auth.getD ⟨none⟩).userId with
    | none => ⟨200, .obj [("message", .str "Unauthorized")]⟩
    | some uid => ⟨200, .obj [("message", .str "Hello Next.js!"), ("userId", .str uid)]⟩

/-- The pattern of the registered route, base path `/api` included. -/
def helloPattern : List Seg :=
  [.lit "api", .lit "hello"]

/-- The registered `GET /hello` route with its chain
`[clerkMiddleware(), handler]`. -/
def helloRoute (rv : Credential → AuthContext) : Route :=
  { method := .GET
    pattern := helloPattern
    steps := [clerkStep rv]
    handler := helloHandler }

/-- The app route table: only `GET /api/hello` is registered. -/
def appRoutes (rv : Credential → AuthContext) : List Route :=
  [helloRoute rv]

/-- Dispatch over a route table: look the route up; on a miss return
the 404 with zero steps invoked; on a hit run the chain on a fresh
context carrying the bound path parameters. -/
def dispatchRoutes (routes : List Route) (req : Request) : Response × Nat :=
  match findRoute routes req.method req.path with
  | none => (notFoundResponse, 0)
  | some (r, ps) => runChainCount r.steps r.handler req ⟨ps, none, none⟩

/-- Dispatch for the app with an explicit identity resolver. -/
def dispatchWith (rv : Credential → AuthContext) (req : Request) : Response × Nat :=
  dispatchRoutes (appRoutes rv) req

/-- Dispatch for the app with the Clerk resolver. -/
def dispatch (req : Request) : Response × Nat :=
  dispatchWith resolve req

/-- An anonymous request to the registered route. -/
def anonHelloReq : Request :=
  ⟨.GET, ["api", "hello"], .absent, [], [], none⟩

/-- C1 counterexample: at the concrete anonymous request to
`GET /api/hello`, the dispatched response has status 200, not 401, and
two chain steps ran (the Clerk middleware and the terminal handler), so
the terminal handler was invoked. -/
theorem c1_counterexample :
    (dispatch anonHelloReq).1.status = 200 ∧
    ¬ (dispatch anonHelloReq).1.status = 401 ∧
    (dispatch anonHelloReq).2 = 2 :=
  ⟨rfl, by decide, rfl⟩

/-- C1 (amended): for every request to `GET /api/hello` whose credential
resolves to the anonymous context, dispatch returns status 200 (the
handler passes no status argument to `c.json`) with body exactly
`{"message":"Unauthorized"}`, and both chain steps run: the check is
performed by the terminal handler itself, which is invoked. -/
theorem c1_anonymous_unauthorized (req : Request) (hm : req.method = .GET)
    (hp : req.path = ["api", "hello"]) (ha : resolve req.cred = ⟨none⟩) :
    dispatch req = (⟨200, .obj [("message", .str "Unauthorized")]⟩, 2) := by
  simp [dispatch, dispatchWith, dispatchRoutes, appRoutes, findRoute, helloRoute,
    helloPattern, matchSegs, hm, hp, runChainCount, clerkStep, helloHandler, ha]

/-- C1 witness: the amended statement holds at the concrete anonymous
request. -/
theorem c1_witness :
    dispatch anonHelloReq = (⟨200, .obj [("message", .str "Unauthorized")]⟩, 2) :=
  c1_anonymous_unauthorized anonHelloReq rfl rfl rfl

/-- C2: a request matching no registered route (wrong method or a path
the only registered pattern rejects) dispatches to the 404 not-found
response with zero chain steps invoked. -/
theorem c2_no_match_404 (req : Request)
    (h : req.method ≠ .GET ∨ matchSegs helloPattern req.path = none) :
    dispatch req = (notFoundResponse, 0) := by
  have hfr : findRoute (appRoutes resolve) req.method req.path = none := by
    rcases h with h | h
    · simp [appRoutes, findRoute, helloRoute, Ne.symm h]
    · by_cases hm : req.method = .GET
      · simp [appRoutes, findRoute, helloRoute, hm, h]
      · simp [appRoutes, findRoute, helloRoute, Ne.symm hm]
  simp [dispatch, dispatchWith, dispatchRoutes, hfr]

/-- C2 witness: a concrete unmatched path dispatches to the 404 with
zero steps. -/
theorem c2_witness :
    dispatch ⟨.GET, ["api", "nope"], .absent, [], [], none⟩ = (notFoundResponse, 0) :=
  c2_no_match_404 ⟨.GET, ["api", "nope"], .absent, [], [], none⟩ (Or.inr (by decide))

/-- C3: for every request to `GET /api/hello` whose credential resolves
to user id `user_123`, dispatch returns status 200 and the body carries
the field `"userId":"user_123"`. -/
theorem c3_authenticated_user (req : Request) (hm : req.method = .GET)
    (hp : req.path = ["api", "hello"]) (ha : resolve req.cred = ⟨some "user_123"⟩) :
    (dispatch req).1.status = 200 ∧
    Json.lookupField (dispatch req).1.body "userId" = some (.str "user_123") := by
  simp [dispatch, dispatchWith, dispatchRoutes, appRoutes, findRoute, helloRoute,
    helloPattern, matchSegs, hm, hp, runChainCount, clerkStep, helloHandler, ha,
    Json.lookupField, List.lookup]

/-- C3 witness: the statement holds at a concrete request carrying a
credential valid for `user_123`. -/
theorem c3_witness :
    (dispatch ⟨.GET, ["api", "hello"], .valid "user_123", [], [], none⟩).1.status = 200 ∧
    Json.lookupField
      (dispatch ⟨.GET, ["api", "hello"], .valid "user_123", [], [], none⟩).1.body
      "userId" = some (.str "user_123") :=
  c3_authenticated_user ⟨.GET, ["api", "hello"], .valid "user_123", [], [], none⟩ rfl rfl rfl

/-- C9: the route table registers no POST route, so every POST request,
whatever its path, credential, query, headers or body, dispatches to
the 404 not-found response with zero chain steps invoked. -/
theorem c9_post_not_found (p : List String) (cr : Credential)
    (q hs : List (String × String)) (b : Option String) :
    dispatch ⟨.POST, p, cr, q, hs, b⟩ = (notFoundResponse, 0) := by
  simp [dispatch, dispatchWith, dispatchRoutes, appRoutes, findRoute, helloRoute]

/-- Helper: the dispatch result depends on the request only through its
method, its path, and the auth context the resolver returns for its
credential; query, headers and body are never read. -/
theorem dispatchWith_reads_only_resolved (rv1 rv2 : Credential → AuthContext)
    (r1 r2 : Request) (hm : r1.method = r2.method) (hp : r1.path = r2.path)
    (hc : rv1 r1.cred = rv2 r2.cred) :
    dispatchWith rv1 r1 = dispatchWith rv2 r2 := by
  simp only [dispatchWith, dispatchRoutes, appRoutes, findRoute, helloRoute]
  rw [hm, hp]
  by_cases hg : Method.GET = r2.method
  · cases hms : matchSegs helloPattern r2.path with
    | none => simp [hg, hms]
    | some ps => simp [hg, hms, runChainCount, clerkStep, helloHandler, hc]
  · simp [hg]

/-- C4: in any chain, steps run strictly in registration order and the
first step to return a terminal response decides the outcome: when the
steps before position `k` all continue and the step at position `k`
halts with response `r`, the chain produces exactly `r` and exactly
`k + 1` step invocations, so no later step and not the terminal handler
ever executes. -/
theorem c4_chain_first_halt (pre : List Step) (s : Step) (post : List Step)
    (h : Handler) (req : Request) (c c' : Ctx) (r : Response)
    (hpre : runSteps pre req c = .next c') (hs : s req c' = .halt r) :
    runChainCount (pre ++ s :: post) h req c = (r, pre.length + 1) := by
  induction pre generalizing c with
  | nil =>
    simp [runSteps] at hpre
    subst hpre
    simp [runChainCount, hs]
  | cons a as ih =>
    cases hac : a req c with
    | halt r0 => simp [runSteps, hac] at hpre
    | next c0 =>
      simp only [runSteps, hac] at hpre
      simp [runChainCount, hac, ih c0 hpre]

/-- C4 witness: a two-step chain whose second step halts produces that
response with exactly two invocations; the later step and the handler
do not run. -/
theorem c4_witness :
    runChainCount
      ([clerkStep resolve] ++ (fun _ _ => .halt notFoundResponse) :: [clerkStep resolve])
      helloHandler anonHelloReq ⟨[], none, none⟩ = (notFoundResponse, 2) :=
  c4_chain_first_halt [clerkStep resolve] (fun _ _ => .halt notFoundResponse)
    [clerkStep resolve] helloHandler anonHelloReq ⟨[], none, none⟩
    ⟨[], some ⟨none⟩, none⟩ notFoundResponse rfl rfl

/-- C5: an invalid or expired credential resolves to the anonymous
context, exactly as an absent credential does, and for every request
the dispatched response with an invalid credential is identical to the
response for the same request with the credential absent (fail-open; no
distinct error surfaced). -/
theorem c5_invalid_equals_absent (m : Method) (p : List String)
    (q hs : List (String × String)) (b : Option String) :
    resolve .invalid = ⟨none⟩ ∧ resolve .absent = ⟨none⟩ ∧
    dispatch ⟨m, p, .invalid, q, hs, b⟩ = dispatch ⟨m, p, .absent, q, hs, b⟩ :=
  ⟨rfl, rfl,
    dispatchWith_reads_only_resolved resolve resolve
      ⟨m, p, .invalid, q, hs, b⟩ ⟨m, p, .absent, q, hs, b⟩ rfl rfl rfl⟩

/-- C8: chain execution is deterministic in the request and the
resolved auth context: two dispatches of the same request under
resolvers that return the same context for its credential (identical
external identity-provider results) yield the same response, and in
particular byte-identical rendered JSON bodies. -/
theorem c8_deterministic (rv1 rv2 : Credential → AuthContext) (req : Request)
    (hio : rv1 req.cred = rv2 req.cred) :
    dispatchWith rv1 req = dispatchWith rv2 req ∧
    Json.render (dispatchWith rv1 req).1.body =
      Json.render (dispatchWith rv2 req).1.body := by
  have h := dispatchWith_reads_only_resolved rv1 rv2 req req rfl rfl hio
  exact ⟨h, by rw [h]⟩

/-- C8 witness: the Clerk resolver and a constant-anonymous resolver
agree on the absent credential, so the two dispatches of the anonymous
request coincide, bodies included. -/
theorem c8_witness :
    dispatchWith resolve anonHelloReq = dispatchWith (fun _ => ⟨none⟩) anonHelloReq ∧
    Json.render (dispatchWith resolve anonHelloReq).1.body =
      Json.render (dispatchWith (fun _ => ⟨none⟩) anonHelloReq).1.body :=
  c8_deterministic resolve (fun _ => ⟨none⟩) anonHelloReq rfl

/-- C10: the response of `GET /api/hello` depends only on the resolved
auth context: two requests to this route whose credentials resolve to
the same context receive identical responses, whatever their query
parameters, non-credential headers or bodies. -/
theorem c10_noninterference (r1 r2 : Request)
    (h1m : r1.method = .GET) (h1p : r1.path = ["api", "hello"])
    (h2m : r2.method = .GET) (h2p : r2.path = ["api", "hello"])
    (hc : resolve r1.cred = resolve r2.cred) :
    dispatch r1 = dispatch r2 :=
  dispatchWith_reads_only_resolved resolve resolve r1 r2
    (h1m.trans h2m.symm) (h1p.trans h2p.symm) hc

/-- C10 witness: a request with an invalid credential, a query string,
extra headers and a body receives the same response as the bare
anonymous request, both resolving to the anonymous context. -/
theorem c10_witness :
    dispatch ⟨.GET, ["api", "hello"], .invalid, [("a", "1")], [("x", "y")], some "zzz"⟩ =
      dispatch anonHelloReq :=
  c10_noninterference
    ⟨.GET, ["api", "hello"], .invalid, [("a", "1")], [("x", "y")], some "zzz"⟩
    anonHelloReq rfl rfl rfl rfl rfl

/-- Modelled from the spec: the primitive field kinds of a declarative
validation schema (the zod usage is commented out in the source, so the
Schema Validator itself is absent from the repository code). -/
inductive FieldKind where
  | string
  | number
  | boolean
deriving DecidableEq

/-- Modelled from the spec: a tagged field descriptor of a schema:
name, primitive kind, required flag. -/
structure FieldDesc where
  name : String
  kind : FieldKind
  required : Bool
deriving DecidableEq

/-- Modelled from the spec: a field-level validation error with a
machine-readable code (`required`, `invalid_type`). -/
structure FieldError where
  field : String
  code : String
deriving DecidableEq

/-- Modelled from the spec: a raw input value at the transport
boundary. -/
inductive RawVal where
  | str (s : String)
  | num (n : Int)
  | bool (b : Bool)
deriving DecidableEq

/-- Modelled from the spec: whether a raw value has a declared
primitive kind; string-typed fields stay strings, nothing is
auto-coerced. -/
def kindMatches : FieldKind → RawVal → Bool
  | .string, .str _ => true
  | .number, .num _ => true
  | .boolean, .bool _ => true
  | _, _ => false

/-- Modelled from the spec: the check of one schema field against the
raw input: a missing required field yields a `required` error, a
present field of the wrong kind an `invalid_type` error. -/
def fieldError (body : List (String × RawVal)) (f : FieldDesc) : Option FieldError :=
  match body.lookup f.name with
  | none => if f.required then some ⟨f.name, "required"⟩ else none
  | some v => if kindMatches f.kind v then none else some ⟨f.name, "invalid_type"⟩

/-- Modelled from the spec: batch validation of a raw input against a
schema: every declared field is checked in one pass and all errors are
collected, not only the first. -/
def validateFields (schema : List FieldDesc) (body : List (String × RawVal)) :
    List FieldError :=
  schema.filterMap (fieldError body)

/-- Modelled from the spec: the validator middleware outcome: `none` on
success, otherwise the 400 response
`{"message":..., "errors":[{"field":..., "code":...}, ...]}`. -/
def validationResponse (schema : List FieldDesc) (body : List (String × RawVal)) :
    Option Response :=
  match validateFields schema body with
  | [] => none
  | errs =>
    some ⟨400, .obj [("message", .str "Validation failed"),
      ("errors", .arr (errs.map (fun e =>
        .obj [("field", .str e.field), ("code", .str e.code)])))]⟩

/-- Helper: when every present field is well-typed and every missing
field is required, batch validation returns one `required` error per
missing field, in schema order. -/
theorem validateFields_all_required (schema : List FieldDesc) (body : List (String × RawVal))
    (hok : ∀ d ∈ schema, ∀ v, body.lookup d.name = some v → kindMatches d.kind v = true)
    (hreq : ∀ d ∈ schema, body.lookup d.name = none → d.required = true) :
    validateFields schema body =
      (schema.filter (fun d => (body.lookup d.name).isNone)).map
        (fun d => ⟨d.name, "required"⟩) := by
  induction schema with
  | nil => rfl
  | cons d ds ih =>
    have hok' : ∀ x ∈ ds, ∀ v, body.lookup x.name = some v → kindMatches x.kind v = true :=
      fun x hx => hok x (List.mem_cons_of_mem _ hx)
    have hreq' : ∀ x ∈ ds, body.lookup x.name = none → x.required = true :=
      fun x hx => hreq x (List.mem_cons_of_mem _ hx)
    have ih' := ih hok' hreq'
    simp only [validateFields] at ih'
    cases hl : body.lookup d.name with
    | none =>
      have hr : d.required = true := hreq d (List.mem_cons_self _ _) hl
      simp [validateFields, fieldError, hl, hr, ih', List.filter_cons]
    | some v =>
      have hk : kindMatches d.kind v = true := hok d (List.mem_cons_self _ _) v hl
      simp [validateFields, fieldError, hl, hk, ih', List.filter_cons]

/-- C7: validation is batched: whenever every present field is
well-typed and exactly two (required) fields of the schema are missing
from the body, the validator produces a 400 response whose errors list
has exactly two entries, each an object with the field name and the
machine-readable code `required`. -/
theorem c7_batch_validation (schema : List FieldDesc) (body : List (String × RawVal))
    (hok : ∀ d ∈ schema, ∀ v, body.lookup d.name = some v → kindMatches d.kind v = true)
    (hreq : ∀ d ∈ schema, body.lookup d.name = none → d.required = true)
    (h2 : (schema.filter (fun d => (body.lookup d.name).isNone)).length = 2) :
    ∃ es : List Json,
      validationResponse schema body =
        some ⟨400, .obj [("message", .str "Validation failed"), ("errors", .arr es)]⟩ ∧
      es.length = 2 ∧
      ∀ e ∈ es, ∃ n, e = .obj [("field", .str n), ("code", .str "required")] := by
  have hv := validateFields_all_required schema body hok hreq
  refine ⟨(schema.filter (fun d => (body.lookup d.name).isNone)).map
      (fun d => .obj [("field", .str d.name), ("code", .str "required")]), ?_, ?_, ?_⟩
  · cases hm : schema.filter (fun d => (body.lookup d.name).isNone) with
    | nil => rw [hm] at h2; simp at h2
    | cons a as =>
      rw [hm] at hv
      simp [validationResponse, hv, hm]
  · simp [h2]
  · intro e he
    simp only [List.mem_map] at he
    obtain ⟨d, _, rfl⟩ := he
    exact ⟨d.name, rfl⟩

/-- A two-required-field schema used to exercise batch validation. -/
def sampleSchema : List FieldDesc :=
  [⟨"name", .string, true⟩, ⟨"amount", .number, true⟩]

/-- C7 witness: the empty body misses both required fields of the
sample schema and the validator reports exactly the two `required`
errors. -/
theorem c7_witness :
    ∃ es : List Json,
      validationResponse sampleSchema [] =
        some ⟨400, .obj [("message", .str "Validation failed"), ("errors", .arr es)]⟩ ∧
      es.length = 2 ∧
      ∀ e ∈ es, ∃ n, e = .obj [("field", .str n), ("code", .str "required")] :=
  c7_batch_validation sampleSchema [] (by simp) (by decide) (by decide)

/-- Modelled from the spec: the schema of the commented-out
`zValidator("param", z.object(...))` with `test` a required string. -/
def paramSchema : List FieldDesc :=
  [⟨"test", .string, true⟩]

/-- Modelled from the spec: the param-validator middleware step: it
validates the bound path parameters against the schema; on failure it
halts with the 400 validation response, on success it writes the
validated value into the context under the param target key and
continues. -/
def zValidatorParamStep (schema : List FieldDesc) : Step :=
  fun _ c =>
    match validationResponse schema (c.params.map (fun kv => (kv.1, RawVal.str kv.2))) with
    | some resp => .halt resp
    | none =>
      .next { c with
        validatedParam :=
          some (schema.filterMap (fun d => (c.params.lookup d.name).map (fun v => (d.name, v)))) }

/-- Modelled from the spec: the commented-out route handler returning
`c.json({message: ..., test: c.req.valid("param")})`, the validated
param object nested under the `test` field. -/
def testHandler : Handler :=
  fun _ c =>
    ⟨200, .obj [("message", .str "Hello Next.js!"),
      ("test", .obj ((c.validatedParam.getD []).map (fun kv => (kv.1, Json.str kv.2))))]⟩

/-- Modelled from the spec: the commented-out route
`GET /hello/:test` with its chain `[zValidator, handler]`, base path
included. -/
def testRoute : Route :=
  { method := .GET
    pattern := [.lit "api", .lit "hello", .pvar "test"]
    steps := [zValidatorParamStep paramSchema]
    handler := testHandler }

/-- Dispatch over the table that registers the param-validated route. -/
def dispatchTest (req : Request) : Response × Nat :=
  dispatchRoutes [testRoute] req

/-- C6: dispatching `GET /api/hello/123` through the param-validated
route yields a 200 response whose body carries `"test":"123"` (nested
under the `test` field, as the handler echoes the whole validated param
object), and dispatching `GET /api/hello`, where the parameter segment
is absent, is a pattern mismatch: 404 with zero steps invoked, so the
validator never ran. -/
theorem c6_param_route :
    dispatchTest ⟨.GET, ["api", "hello", "123"], .absent, [], [], none⟩ =
      (⟨200, .obj [("message", .str "Hello Next.js!"),
        ("test", .obj [("test", .str "123")])]⟩, 2) ∧
    (∃ s1 s2 : String,
      Json.render
        (dispatchTest ⟨.GET, ["api", "hello", "123"], .absent, [], [], none⟩).1.body =
        s1 ++ "\"test\":\"123\"" ++ s2) ∧
    dispatchTest ⟨.GET, ["api", "hello"], .absent, [], [], none⟩ =
      (notFoundResponse, 0) :=
  ⟨rfl, ⟨"\x7b\"message\":\"Hello Next.js!\",\"test\":\x7b", "\x7d\x7d", rfl⟩, rfl⟩

end BudgetBuddy
